import Mathlib

/- Verification of the rule-augmented risk classification engine of the
Projet_DBA repository.  The definitions below are shallow embeddings of
`LLMEngine.assess_security` and `LLMEngine.detect_anomaly`
(src/llm_engine.py) and of `OracleAnomalyDetector`
(src/module6_anomaly_detector.py).  Text is modelled as Lean `String`
(lists of characters), Python substring tests as an explicit boolean
containment function, and the regular expressions of the attack-pattern
table as a small token language (literal characters, whitespace classes,
and the dot-star wildcard) with a backtracking matcher. -/

namespace ProjetDBA

/-- Python `str.lower` on a list of characters (the configuration and log
texts handled by the engine are ASCII, where `Char.toLower` agrees with
Python). -/
def lowerL (s : List Char) : List Char := s.map Char.toLower

/-- Boolean test that `p` is a leading segment of `s`. -/
def isPrefixL : List Char → List Char → Bool
  | [], _ => true
  | _ :: _, [] => false
  | p :: ps, c :: cs => p == c && isPrefixL ps cs

/-- Python's `pat in s` substring test. -/
def containsSub : List Char → List Char → Bool
  | [], pat => isPrefixL pat []
  | c :: t, pat => isPrefixL pat (c :: t) || containsSub t pat

theorem isPrefixL_iff (p s : List Char) : isPrefixL p s = true ↔ ∃ t, s = p ++ t := by
  induction p generalizing s with
  | nil => simp [isPrefixL]
  | cons a ps ih =>
    cases s with
    | nil => simp [isPrefixL]
    | cons c cs =>
      simp only [isPrefixL, Bool.and_eq_true, beq_iff_eq, ih, List.cons_append,
        List.cons.injEq]
      constructor
      · rintro ⟨rfl, t, rfl⟩; exact ⟨t, rfl, rfl⟩
      · rintro ⟨t, rfl, rfl⟩; exact ⟨rfl, t, rfl⟩

theorem containsSub_iff (s pat : List Char) :
    containsSub s pat = true ↔ ∃ a b, s = a ++ pat ++ b := by
  induction s with
  | nil =>
    simp only [containsSub, isPrefixL_iff]
    constructor
    · rintro ⟨t, ht⟩
      exact ⟨[], t, by simpa using ht⟩
    · rintro ⟨a, b, hab⟩
      have ha : a = [] := by
        cases a with
        | nil => rfl
        | cons x xs => simp at hab
      subst ha
      exact ⟨b, by simpa using hab⟩
  | cons c t ih =>
    simp only [containsSub, Bool.or_eq_true, isPrefixL_iff, ih]
    constructor
    · rintro (⟨u, hu⟩ | ⟨a, b, hab⟩)
      · exact ⟨[], u, by simpa using hu⟩
      · exact ⟨c :: a, b, by simp [hab]⟩
    · rintro ⟨a, b, hab⟩
      cases a with
      | nil => exact Or.inl ⟨b, by simpa using hab⟩
      | cons x xs =>
        simp only [List.cons_append, List.cons.injEq] at hab
        exact Or.inr ⟨xs, b, hab.2⟩

theorem containsSub_trans {s m p : List Char} (h1 : containsSub s m = true)
    (h2 : containsSub m p = true) : containsSub s p = true := by
  rw [containsSub_iff] at h1 h2 ⊢
  obtain ⟨a, b, rfl⟩ := h1
  obtain ⟨c, d, rfl⟩ := h2
  exact ⟨a ++ c, d ++ b, by simp⟩

/-! ## Security-configuration scoring

`LLMEngine.assess_security` (src/llm_engine.py, lines 212-233) lower-cases
the configuration text once and subtracts a fixed penalty for each risky
keyword found by a plain substring test, starting from 100, then clamps
to [0, 100].  Each `cond…` definition below is one of the seven keyword
conditions, in source order. -/

def condDba (config : String) : Bool :=
  containsSub (lowerL config.data) "dba".data

def condCreateAnyTable (config : String) : Bool :=
  containsSub (lowerL config.data) "create any table".data

def condSelectAnyTable (config : String) : Bool :=
  containsSub (lowerL config.data) "select any table".data

def condDropAny (config : String) : Bool :=
  containsSub (lowerL config.data) "drop any".data

def condNeverExpires (config : String) : Bool :=
  containsSub (lowerL config.data) "n'expire".data
    || containsSub (lowerL config.data) "never expire".data
    || containsSub (lowerL config.data) "jamais".data

def condUnlimitedTablespace (config : String) : Bool :=
  containsSub (lowerL config.data) "unlimited tablespace".data

def condSystemPriv (config : String) : Bool :=
  containsSub (lowerL config.data) "sysdba".data
    || containsSub (lowerL config.data) "sysoper".data

/-- The deduction chain of `assess_security` abstracted over the seven
keyword conditions: sequential penalties then the final clamp
`max(0, min(100, score))`. -/
def scoreFromFlags (b1 b2 b3 b4 b5 b6 b7 : Bool) : Int :=
  let s0 : Int := 100
  let s1 := if b1 then s0 - 40 else s0
  let s2 := if b2 then s1 - 20 else s1
  let s3 := if b3 then s2 - 20 else s2
  let s4 := if b4 then s3 - 15 else s3
  let s5 := if b5 then s4 - 15 else s4
  let s6 := if b6 then s5 - 10 else s5
  let s7 := if b7 then s6 - 30 else s6
  max 0 (min 100 s7)

/-- Score computed by `LLMEngine.assess_security`: the penalties are applied
in source order (dba −40, create any table −20, select any table −20,
drop any −15, never-expires −15, unlimited tablespace −10,
sysdba/sysoper −30) and the result clamped to [0, 100]. -/
def assess_security_score (config : String) : Int :=
  scoreFromFlags (condDba config) (condCreateAnyTable config)
    (condSelectAnyTable config) (condDropAny config) (condNeverExpires config)
    (condUnlimitedTablespace config) (condSystemPriv config)

/-- Ordered severity scale of the specification's data model. -/
inductive Severity
  | NORMAL
  | LOW
  | MEDIUM
  | MEDIUM_HIGH
  | HIGH
  | CRITICAL
deriving DecidableEq, Repr

/-- Position of a severity in the NORMAL < LOW < MEDIUM < MEDIUM_HIGH <
HIGH < CRITICAL order. -/
def sevRank : Severity → Nat
  | .NORMAL => 0
  | .LOW => 1
  | .MEDIUM => 2
  | .MEDIUM_HIGH => 3
  | .HIGH => 4
  | .CRITICAL => 5

/-- Modelled from the spec: the source computes only the numeric score for a
SecurityConfig; the score → severity threshold table lives in the spec
(§4.1): ≥ 80 → LOW, 60–79 → MEDIUM, 40–59 → MEDIUM_HIGH, 20–39 → HIGH,
< 20 → CRITICAL, and NORMAL when no deduction fired at all. -/
def securitySeverity (score : Int) (anyDeduction : Bool) : Severity :=
  if !anyDeduction then .NORMAL
  else if 80 ≤ score then .LOW
  else if 60 ≤ score then .MEDIUM
  else if 40 ≤ score then .MEDIUM_HIGH
  else if 20 ≤ score then .HIGH
  else .CRITICAL

/-- Whether at least one of the seven deduction conditions fired. -/
def anyDeduction (config : String) : Bool :=
  condDba config || condCreateAnyTable config || condSelectAnyTable config
    || condDropAny config || condNeverExpires config
    || condUnlimitedTablespace config || condSystemPriv config

/-- Severity assigned to a security configuration: the spec's thresholds
applied to the source-computed score. -/
def assessSeverity (config : String) : Severity :=
  securitySeverity (assess_security_score config) (anyDeduction config)

/-- Severity of a flag vector: the spec thresholds applied to the score and
the fired-at-all bit. -/
def sevOfFlags (b1 b2 b3 b4 b5 b6 b7 : Bool) : Severity :=
  securitySeverity (scoreFromFlags b1 b2 b3 b4 b5 b6 b7)
    (b1 || b2 || b3 || b4 || b5 || b6 || b7)

theorem sec_mono_step1 (x y b2 b3 b4 b5 b6 b7 : Bool) (h : x = true → y = true) :
    scoreFromFlags y b2 b3 b4 b5 b6 b7 ≤ scoreFromFlags x b2 b3 b4 b5 b6 b7 ∧
    sevRank (sevOfFlags x b2 b3 b4 b5 b6 b7) ≤ sevRank (sevOfFlags y b2 b3 b4 b5 b6 b7) := by
  revert h; revert x y b2 b3 b4 b5 b6 b7; decide

theorem sec_mono_step2 (b1 x y b3 b4 b5 b6 b7 : Bool) (h : x = true → y = true) :
    scoreFromFlags b1 y b3 b4 b5 b6 b7 ≤ scoreFromFlags b1 x b3 b4 b5 b6 b7 ∧
    sevRank (sevOfFlags b1 x b3 b4 b5 b6 b7) ≤ sevRank (sevOfFlags b1 y b3 b4 b5 b6 b7) := by
  revert h; revert b1 x y b3 b4 b5 b6 b7; decide

theorem sec_mono_step3 (b1 b2 x y b4 b5 b6 b7 : Bool) (h : x = true → y = true) :
    scoreFromFlags b1 b2 y b4 b5 b6 b7 ≤ scoreFromFlags b1 b2 x b4 b5 b6 b7 ∧
    sevRank (sevOfFlags b1 b2 x b4 b5 b6 b7) ≤ sevRank (sevOfFlags b1 b2 y b4 b5 b6 b7) := by
  revert h; revert b1 b2 x y b4 b5 b6 b7; decide

theorem sec_mono_step4 (b1 b2 b3 x y b5 b6 b7 : Bool) (h : x = true → y = true) :
    scoreFromFlags b1 b2 b3 y b5 b6 b7 ≤ scoreFromFlags b1 b2 b3 x b5 b6 b7 ∧
    sevRank (sevOfFlags b1 b2 b3 x b5 b6 b7) ≤ sevRank (sevOfFlags b1 b2 b3 y b5 b6 b7) := by
  revert h; revert b1 b2 b3 x y b5 b6 b7; decide

theorem sec_mono_step5 (b1 b2 b3 b4 x y b6 b7 : Bool) (h : x = true → y = true) :
    scoreFromFlags b1 b2 b3 b4 y b6 b7 ≤ scoreFromFlags b1 b2 b3 b4 x b6 b7 ∧
    sevRank (sevOfFlags b1 b2 b3 b4 x b6 b7) ≤ sevRank (sevOfFlags b1 b2 b3 b4 y b6 b7) := by
  revert h; revert b1 b2 b3 b4 x y b6 b7; decide

theorem sec_mono_step6 (b1 b2 b3 b4 b5 x y b7 : Bool) (h : x = true → y = true) :
    scoreFromFlags b1 b2 b3 b4 b5 y b7 ≤ scoreFromFlags b1 b2 b3 b4 b5 x b7 ∧
    sevRank (sevOfFlags b1 b2 b3 b4 b5 x b7) ≤ sevRank (sevOfFlags b1 b2 b3 b4 b5 y b7) := by
  revert h; revert b1 b2 b3 b4 b5 x y b7; decide

theorem sec_mono_step7 (b1 b2 b3 b4 b5 b6 x y : Bool) (h : x = true → y = true) :
    scoreFromFlags b1 b2 b3 b4 b5 b6 y ≤ scoreFromFlags b1 b2 b3 b4 b5 b6 x ∧
    sevRank (sevOfFlags b1 b2 b3 b4 b5 b6 x) ≤ sevRank (sevOfFlags b1 b2 b3 b4 b5 b6 y) := by
  revert h; revert b1 b2 b3 b4 b5 b6 x y; decide

/-- Pointwise-implication monotonicity over the seven deduction flags. -/
theorem flags_mono (a1 a2 a3 a4 a5 a6 a7 b1 b2 b3 b4 b5 b6 b7 : Bool)
    (h1 : a1 = true → b1 = true) (h2 : a2 = true → b2 = true)
    (h3 : a3 = true → b3 = true) (h4 : a4 = true → b4 = true)
    (h5 : a5 = true → b5 = true) (h6 : a6 = true → b6 = true)
    (h7 : a7 = true → b7 = true) :
    scoreFromFlags b1 b2 b3 b4 b5 b6 b7 ≤ scoreFromFlags a1 a2 a3 a4 a5 a6 a7 ∧
    sevRank (sevOfFlags a1 a2 a3 a4 a5 a6 a7) ≤ sevRank (sevOfFlags b1 b2 b3 b4 b5 b6 b7) := by
  obtain ⟨s1, r1⟩ := sec_mono_step1 a1 b1 a2 a3 a4 a5 a6 a7 h1
  obtain ⟨s2, r2⟩ := sec_mono_step2 b1 a2 b2 a3 a4 a5 a6 a7 h2
  obtain ⟨s3, r3⟩ := sec_mono_step3 b1 b2 a3 b3 a4 a5 a6 a7 h3
  obtain ⟨s4, r4⟩ := sec_mono_step4 b1 b2 b3 a4 b4 a5 a6 a7 h4
  obtain ⟨s5, r5⟩ := sec_mono_step5 b1 b2 b3 b4 a5 b5 a6 a7 h5
  obtain ⟨s6, r6⟩ := sec_mono_step6 b1 b2 b3 b4 b5 a6 b6 a7 h6
  obtain ⟨s7, r7⟩ := sec_mono_step7 b1 b2 b3 b4 b5 b6 a7 b7 h7
  exact ⟨s7.trans (s6.trans (s5.trans (s4.trans (s3.trans (s2.trans s1))))),
    r1.trans (r2.trans (r3.trans (r4.trans (r5.trans (r6.trans r7)))))⟩

/-- Claim C1: a security configuration whose text contains the DBA role and a
never-expiring password marker, and triggers no other deduction keyword,
scores exactly 100 − 40 − 15 = 45 in `assess_security`. -/
theorem c1_dba_never_expires_score (config : String)
    (hdba : condDba config = true)
    (hnev : condNeverExpires config = true)
    (hct : condCreateAnyTable config = false)
    (hst : condSelectAnyTable config = false)
    (hda : condDropAny config = false)
    (hut : condUnlimitedTablespace config = false)
    (hsp : condSystemPriv config = false) :
    assess_security_score config = 45 := by
  unfold assess_security_score
  rw [hdba, hnev, hct, hst, hda, hut, hsp]
  decide

/-- Witness for C1 at a concrete configuration text. -/
theorem c1_dba_never_expires_score_witness :
    assess_security_score "user app role dba ; password never expire" = 45 :=
  c1_dba_never_expires_score "user app role dba ; password never expire"
    (by decide) (by decide) (by decide) (by decide) (by decide) (by decide) (by decide)

/-- Claim C5: strengthening the set of fired deduction conditions (every
condition triggered by `c1` is also triggered by `c2`) never increases the
security score and never decreases the severity, under the spec's
score → severity thresholds. -/
theorem c5_monotonic_score_severity (c1 c2 : String)
    (h1 : condDba c1 = true → condDba c2 = true)
    (h2 : condCreateAnyTable c1 = true → condCreateAnyTable c2 = true)
    (h3 : condSelectAnyTable c1 = true → condSelectAnyTable c2 = true)
    (h4 : condDropAny c1 = true → condDropAny c2 = true)
    (h5 : condNeverExpires c1 = true → condNeverExpires c2 = true)
    (h6 : condUnlimitedTablespace c1 = true → condUnlimitedTablespace c2 = true)
    (h7 : condSystemPriv c1 = true → condSystemPriv c2 = true) :
    assess_security_score c2 ≤ assess_security_score c1 ∧
    sevRank (assessSeverity c1) ≤ sevRank (assessSeverity c2) :=
  flags_mono (condDba c1) (condCreateAnyTable c1) (condSelectAnyTable c1)
    (condDropAny c1) (condNeverExpires c1) (condUnlimitedTablespace c1) (condSystemPriv c1)
    (condDba c2) (condCreateAnyTable c2) (condSelectAnyTable c2)
    (condDropAny c2) (condNeverExpires c2) (condUnlimitedTablespace c2) (condSystemPriv c2)
    h1 h2 h3 h4 h5 h6 h7

/-- Witness for C5: appending the UNLIMITED TABLESPACE privilege to a DBA
configuration. -/
theorem c5_monotonic_score_severity_witness :
    assess_security_score "role dba granted, unlimited tablespace" ≤
      assess_security_score "role dba granted" ∧
    sevRank (assessSeverity "role dba granted") ≤
      sevRank (assessSeverity "role dba granted, unlimited tablespace") :=
  c5_monotonic_score_severity "role dba granted" "role dba granted, unlimited tablespace"
    (by decide) (by decide) (by decide) (by decide) (by decide) (by decide) (by decide)

/-- Claim C9: because the deductions are substring tests over the whole
lower-cased text, any configuration containing "sysdba" (or "sysoper"
together with an occurrence of "dba") fires both the DBA deduction (−40)
and the system-privilege deduction (−30), so it scores at most 30. -/
theorem c9_sysdba_caps_score (config : String)
    (h : containsSub (lowerL config.data) "sysdba".data = true ∨
      (containsSub (lowerL config.data) "sysoper".data = true ∧ condDba config = true)) :
    assess_security_score config ≤ 30 := by
  have hdba : condDba config = true := by
    rcases h with h | ⟨_, hd⟩
    · exact containsSub_trans h (by decide)
    · exact hd
  have hsp : condSystemPriv config = true := by
    rcases h with h | ⟨hs, _⟩
    · simp [condSystemPriv, h]
    · simp [condSystemPriv, hs]
  have key : ∀ b2 b3 b4 b5 b6 : Bool, scoreFromFlags true b2 b3 b4 b5 b6 true ≤ 30 := by
    decide
  unfold assess_security_score
  rw [hdba, hsp]
  exact key _ _ _ _ _

/-- Witness for C9: a configuration granting SYSDBA but never the DBA role. -/
theorem c9_sysdba_caps_score_witness :
    assess_security_score "grant sysdba to app" ≤ 30 :=
  c9_sysdba_caps_score "grant sysdba to app" (Or.inl (by decide))

/-! ## Log-entry anomaly classification (`LLMEngine.detect_anomaly`)

src/llm_engine.py, lines 339-451.  The entry text is lower-cased; a static
table of known Oracle error codes is consulted first (critical codes, then
suspect codes, first match wins) and short-circuits with a rule-based
result.  Only when no code matches is the generative model invoked; its
outcome is modelled by an `Except String String` argument (`.ok response`
or `.error e` when the call raises), and its reply is parsed with the
source's regular expressions. -/

/-- Python `s[:n]` string truncation. -/
def pyTake (n : Nat) (s : String) : String := ⟨s.data.take n⟩

/-- Whitespace class of Python's regex `\s` / `str.strip` (ASCII range). -/
def isWsChar (c : Char) : Bool :=
  c == ' ' || c == '\t' || c == '\n' || c == '\r' || c.val == 11 || c.val == 12

/-- Word class of Python's regex `\w` (ASCII range). -/
def isWordChar (c : Char) : Bool := c.isAlphanum || c == '_'

/-- Python `str.strip()`. -/
def stripWs (s : List Char) : List Char :=
  ((s.dropWhile isWsChar).reverse.dropWhile isWsChar).reverse

/-- Case-insensitive removal of the literal `key` (given lower-case) from the
front of `s`; returns the remainder on success. -/
def dropLitCI : List Char → List Char → Option (List Char)
  | [], s => some s
  | _ :: _, [] => none
  | p :: ps, c :: cs => if c.toLower == p then dropLitCI ps cs else none

/-- Match of `KEY\s*:\s*(\w+)` at the head of `s` (case-insensitive),
returning the captured word.  `\s*` before `:` and before `\w+` is
deterministic because the character classes are disjoint. -/
def matchKeyWordAt (key : List Char) (s : List Char) : Option (List Char) :=
  match dropLitCI key s with
  | none => none
  | some r1 =>
    match r1.dropWhile isWsChar with
    | ':' :: r2 =>
      let w := (r2.dropWhile isWsChar).takeWhile isWordChar
      if w.isEmpty then none else some w
    | _ => none

/-- `re.search` of `KEY\s*:\s*(\w+)`: leftmost matching position. -/
def searchKeyWord (key : List Char) : List Char → Option (List Char)
  | [] => matchKeyWordAt key []
  | c :: t =>
    match matchKeyWordAt key (c :: t) with
    | some w => some w
    | none => searchKeyWord key t

/-- Match of `KEY\s*:\s*(.+)` (DOTALL) at the head of `s`: the capture is
everything after the greedily consumed whitespace; when only whitespace
follows the colon the regex backtracks and `.+` captures the final
whitespace character. -/
def matchKeyRestAt (key : List Char) (s : List Char) : Option (List Char) :=
  match dropLitCI key s with
  | none => none
  | some r1 =>
    match r1.dropWhile isWsChar with
    | ':' :: r2 =>
      if r2.isEmpty then none
      else
        let r3 := r2.dropWhile isWsChar
        if r3.isEmpty then
          match r2.reverse with
          | c :: _ => some [c]
          | [] => none
        else some r3
    | _ => none

/-- `re.search` of `KEY\s*:\s*(.+)`: leftmost matching position. -/
def searchKeyRest (key : List Char) : List Char → Option (List Char)
  | [] => matchKeyRestAt key []
  | c :: t =>
    match matchKeyRestAt key (c :: t) with
    | some w => some w
    | none => searchKeyRest key t

/-- `critical_errors` table of `detect_anomaly`: error code →
(classification, severity, justification). -/
def critical_errors : List (String × String × String × String) :=
  [("ora-00600", "CRITIQUE", "CRITIQUE", "Erreur interne Oracle - Nécessite support Oracle"),
   ("ora-00700", "CRITIQUE", "CRITIQUE", "Soft internal error - Vérifier alertes"),
   ("ora-01555", "CRITIQUE", "HAUTE", "Snapshot too old - Augmenter UNDO_RETENTION"),
   ("ora-01652", "CRITIQUE", "HAUTE", "Tablespace temporaire plein - Augmenter TEMP"),
   ("ora-00257", "CRITIQUE", "CRITIQUE", "Archiver error - Espace disque insuffisant"),
   ("ora-27037", "CRITIQUE", "HAUTE", "Erreur I/O fichier - Vérifier disque"),
   ("tns-12535", "CRITIQUE", "HAUTE", "Timeout réseau - Vérifier connectivité"),
   ("tns-12560", "CRITIQUE", "HAUTE", "Erreur adaptateur protocole")]

/-- `suspect_errors` table of `detect_anomaly`. -/
def suspect_errors : List (String × String × String × String) :=
  [("ora-00942", "SUSPECT", "MOYENNE", "Table inexistante ou privilèges manquants"),
   ("ora-01017", "SUSPECT", "MOYENNE", "Login/password invalide - Possible attaque"),
   ("ora-12154", "SUSPECT", "BASSE", "TNS service name non résolu"),
   ("ora-28000", "SUSPECT", "MOYENNE", "Compte verrouillé - Tentatives login multiples")]

/-- First table entry whose error code occurs in the lower-cased log text
(the source loops in insertion order and breaks at the first hit). -/
def firstError (tbl : List (String × String × String × String)) (logLower : List Char) :
    Option (String × String × String) :=
  match tbl with
  | [] => none
  | (code, cl, sv, j) :: rest =>
    if containsSub logLower code.data then some (cl, sv, j)
    else firstError rest logLower

/-- Result dictionary of `detect_anomaly`.  `model_used` is `some
"rule-based"` on the rule path, `some default_model` on the successful model
path, and absent (`none`) on the model-failure path; `log_excerpt` and
`error` model the keys that only some branches set. -/
structure AnomalyResult where
  classification : String
  justification : String
  severity : String
  confidence : String
  model_used : Option String
  log_excerpt : Option String
  error : Option String
deriving DecidableEq, Repr

/-- `LLMEngine.detect_anomaly` (src/llm_engine.py, lines 339-451). -/
def detect_anomaly (default_model : String) (log_entry : String)
    (gen : Except String String) : AnomalyResult :=
  let logLower := lowerL log_entry.data
  match firstError critical_errors logLower <|> firstError suspect_errors logLower with
  | some (cl, sv, j) =>
    { classification := cl, justification := j, severity := sv, confidence := "high",
      model_used := some "rule-based", log_excerpt := some (pyTake 100 log_entry),
      error := none }
  | none =>
    match gen with
    | .error e =>
      { classification := "NORMAL",
        justification := "Impossible d'analyser ce log. Erreur: " ++ pyTake 50 e,
        severity := "BASSE", confidence := "low", model_used := none,
        log_excerpt := none, error := some e }
    | .ok response =>
      let respLower := lowerL response.data
      let classification :=
        match searchKeyWord "classification".data response.data with
        | some w => (⟨w.map Char.toUpper⟩ : String)
        | none =>
          if containsSub respLower "critique".data
              || containsSub respLower "critical".data then "CRITIQUE"
          else if containsSub respLower "suspect".data
              || containsSub respLower "anormal".data then "SUSPECT"
          else "NORMAL"
      let justification :=
        match searchKeyRest "justification".data response.data with
        | some cap => (⟨(stripWs cap).take 200⟩ : String)
        | none => pyTake 200 response
      let severity :=
        if classification = "CRITIQUE" then "CRITIQUE"
        else if classification = "SUSPECT" then "MOYENNE"
        else if classification = "NORMAL" then "BASSE"
        else "MOYENNE"
      { classification := classification, justification := justification,
        severity := severity, confidence := "medium",
        model_used := some default_model, log_excerpt := none, error := none }

/-- The spec's RULE_BASED / MODEL_BASED method of a `detect_anomaly` result:
rule-based exactly when the source tagged the result `model_used =
"rule-based"`. -/
def methodOf (r : AnomalyResult) : String :=
  if r.model_used = some "rule-based" then "RULE_BASED" else "MODEL_BASED"

theorem firstError_all_critique (tbl : List (String × String × String × String))
    (l : List Char)
    (hall : ∀ e ∈ tbl, e.2.1 = "CRITIQUE")
    (hex : ∃ e ∈ tbl, containsSub l e.1.data = true) :
    ∃ sv j, firstError tbl l = some ("CRITIQUE", sv, j) := by
  induction tbl with
  | nil => simp at hex
  | cons a rest ih =>
    obtain ⟨code, cl, sv, j⟩ := a
    by_cases hc : containsSub l code.data = true
    · have hcl : cl = "CRITIQUE" := hall (code, cl, sv, j) (List.mem_cons_self _ _)
      subst hcl
      exact ⟨sv, j, by simp [firstError, hc]⟩
    · have hb : containsSub l code.data = false := by
        cases hcb : containsSub l code.data
        · rfl
        · exact absurd hcb hc
      obtain ⟨e, he, hce⟩ := hex
      rcases List.mem_cons.mp he with rfl | he'
      · exact absurd hce hc
      · obtain ⟨sv', j', hf⟩ :=
          ih (fun x hx => hall x (List.mem_cons_of_mem _ hx)) ⟨e, he', hce⟩
        exact ⟨sv', j', by simp [firstError, hb, hf]⟩

/-- Claim C2: any log entry whose text contains the substring "ORA-01555"
is classified CRITIQUE (the top class, the spec's CRITICAL) by the static
Oracle error-code table with method RULE_BASED, regardless of any other
content of the entry and regardless of the generative model's behaviour.
(All entries of the critical table carry classification CRITIQUE, and the
table is consulted before the suspect table and before the model.) -/
theorem c2_ora01555_rule_based (dm log_entry : String) (gen : Except String String)
    (h : containsSub log_entry.data "ORA-01555".data = true) :
    (detect_anomaly dm log_entry gen).classification = "CRITIQUE" ∧
    methodOf (detect_anomaly dm log_entry gen) = "RULE_BASED" := by
  have hlow : containsSub (lowerL log_entry.data) "ora-01555".data = true := by
    rw [containsSub_iff] at h ⊢
    obtain ⟨a, b, hab⟩ := h
    refine ⟨lowerL a, lowerL b, ?_⟩
    have hcode : lowerL "ORA-01555".data = "ora-01555".data := by decide
    rw [hab]
    simp only [lowerL, List.map_append]
    rw [← lowerL, ← lowerL, ← lowerL, hcode]
  obtain ⟨sv, j, hfe⟩ := firstError_all_critique critical_errors (lowerL log_entry.data)
    (by decide)
    ⟨("ora-01555", "CRITIQUE", "HAUTE", "Snapshot too old - Augmenter UNDO_RETENTION"),
      by decide, hlow⟩
  constructor <;> simp [detect_anomaly, methodOf, hfe]

/-- Witness for C2 at a concrete ORA-01555 log line with a live model. -/
theorem c2_ora01555_rule_based_witness :
    (detect_anomaly "gemma2:2b" "ORA-01555: snapshot too old - rollback segment too small"
        (.ok "CLASSIFICATION: NORMAL")).classification = "CRITIQUE" ∧
    methodOf (detect_anomaly "gemma2:2b" "ORA-01555: snapshot too old - rollback segment too small"
        (.ok "CLASSIFICATION: NORMAL")) = "RULE_BASED" :=
  c2_ora01555_rule_based "gemma2:2b" "ORA-01555: snapshot too old - rollback segment too small"
    (.ok "CLASSIFICATION: NORMAL") (by decide)

/-- Claim C3: when no error-code rule matches and the generative call fails,
the failure is absorbed: the result is classification NORMAL with method
MODEL_BASED and a justification naming the unavailability reason; mapping
the (total) classifier over a batch of N entries yields exactly N results. -/
theorem c3_model_failure_absorbed (dm log_entry e : String) (logs : List String)
    (hc : firstError critical_errors (lowerL log_entry.data) = none)
    (hs : firstError suspect_errors (lowerL log_entry.data) = none) :
    (detect_anomaly dm log_entry (.error e)).classification = "NORMAL" ∧
    methodOf (detect_anomaly dm log_entry (.error e)) = "MODEL_BASED" ∧
    (detect_anomaly dm log_entry (.error e)).justification =
      "Impossible d'analyser ce log. Erreur: " ++ pyTake 50 e ∧
    (logs.map fun l => detect_anomaly dm l (.error e)).length = logs.length := by
  refine ⟨?_, ?_, ?_, by simp⟩ <;> simp [detect_anomaly, methodOf, hc, hs]

/-- Witness for C3: a benign log line, a failing model, a two-entry batch. -/
theorem c3_model_failure_absorbed_witness :
    (detect_anomaly "gemma2:2b" "Completed: ALTER DATABASE OPEN"
        (.error "connection refused")).classification = "NORMAL" ∧
    methodOf (detect_anomaly "gemma2:2b" "Completed: ALTER DATABASE OPEN"
        (.error "connection refused")) = "MODEL_BASED" ∧
    (detect_anomaly "gemma2:2b" "Completed: ALTER DATABASE OPEN"
        (.error "connection refused")).justification =
      "Impossible d'analyser ce log. Erreur: " ++ pyTake 50 "connection refused" ∧
    ((["Completed: ALTER DATABASE OPEN", "log file sync"].map
        fun l => detect_anomaly "gemma2:2b" l (.error "connection refused")).length = 2) :=
  c3_model_failure_absorbed "gemma2:2b" "Completed: ALTER DATABASE OPEN" "connection refused"
    ["Completed: ALTER DATABASE OPEN", "log file sync"] (by decide) (by decide)

/-! ## Audit-log attack detection (`OracleAnomalyDetector`)

src/module6_anomaly_detector.py.  The attack-signature regexes use only
literal characters, `\s+`, `\s*`, and `.*`, all under `re.IGNORECASE`;
they are embedded in a small token language with a backtracking matcher
(the boolean match/search result is order-independent, so trying both
greedy and non-greedy continuations is equivalent to Python's search). -/

/-- Token language covering the regex constructs of the attack-pattern
table: a literal character (compared case-insensitively), `\s+`, `\s*`,
and `.*` (which does not cross a newline, as in Python without DOTALL). -/
inductive Tok
  | lit (c : Char)
  | ws1
  | ws0
  | anystar
deriving DecidableEq, Repr

/-- Fuelled backtracking matcher: every recursive call either consumes one
character of `s` or discards one token with `s` unchanged, so the measure
`p.length + s.length` drops by at least one per call and the fuel used by
`matchToks` below is always sufficient.  (The fuel makes the recursion
structural, hence kernel-reducible.) -/
def matchToksF : Nat → List Tok → List Char → Bool
  | 0, _, _ => false
  | _ + 1, [], _ => true
  | _ + 1, Tok.lit _ :: _, [] => false
  | f + 1, Tok.lit c :: ps, d :: s => (d.toLower == c) && matchToksF f ps s
  | _ + 1, Tok.ws1 :: _, [] => false
  | f + 1, Tok.ws1 :: ps, d :: s => isWsChar d && matchToksF f (Tok.ws0 :: ps) s
  | f + 1, Tok.ws0 :: ps, [] => matchToksF f ps []
  | f + 1, Tok.ws0 :: ps, d :: s =>
    (isWsChar d && matchToksF f (Tok.ws0 :: ps) s) || matchToksF f ps (d :: s)
  | f + 1, Tok.anystar :: ps, [] => matchToksF f ps []
  | f + 1, Tok.anystar :: ps, d :: s =>
    matchToksF f ps (d :: s) || ((d != '\n') && matchToksF f (Tok.anystar :: ps) s)

/-- Backtracking matcher: does the token list match some leading segment of
`s`? -/
def matchToks (p : List Tok) (s : List Char) : Bool :=
  matchToksF (p.length + s.length + 1) p s

/-- `re.search` for one alternative: match at some position of `s`. -/
def searchToks (p : List Tok) : List Char → Bool
  | [] => matchToks p []
  | c :: t => matchToks p (c :: t) || searchToks p t

/-- `re.search` for a top-level alternation `(alt1|alt2|…)`. -/
def searchRegex (alts : List (List Tok)) (s : List Char) : Bool :=
  alts.any fun a => searchToks a s

/-- Literal-character tokens from a (lower-case) pattern string. -/
def lits (s : String) : List Tok := s.data.map Tok.lit

/-- One entry of the `ATTACK_PATTERNS` class attribute. -/
structure AttackInfo where
  patterns : List (List (List Tok))
  severity : String
  description : String
deriving DecidableEq, Repr

/-- `OracleAnomalyDetector.ATTACK_PATTERNS` (module6, lines 24-78), in
source (insertion) order; each inner list is one compiled regex given as
its top-level alternatives. -/
def ATTACK_PATTERNS : List (String × AttackInfo) :=
  [("SQL_INJECTION",
    { patterns :=
        [[lits "union" ++ [Tok.ws1] ++ lits "select",
          lits "or" ++ [Tok.ws1] ++ lits "1" ++ [Tok.ws0] ++ lits "=" ++ [Tok.ws0] ++ lits "1",
          lits "'" ++ [Tok.ws0] ++ lits "or" ++ [Tok.ws0] ++ lits "'1'" ++ [Tok.ws0]
            ++ lits "=" ++ [Tok.ws0] ++ lits "'1"],
         [lits ";--", lits "*/", lits "/*", lits "xp_cmdshell"],
         [lits "drop" ++ [Tok.ws1] ++ lits "table",
          lits "exec" ++ [Tok.ws0] ++ lits "(",
          lits "execute" ++ [Tok.ws1] ++ lits "immediate"]],
      severity := "CRITIQUE",
      description := "Tentative d'injection SQL détectée" }),
   ("PRIVILEGE_ESCALATION",
    { patterns :=
        [[lits "grant" ++ [Tok.ws1] ++ lits "dba",
          lits "grant" ++ [Tok.ws1] ++ lits "sysdba",
          lits "grant" ++ [Tok.ws1] ++ lits "all"],
         [lits "alter" ++ [Tok.ws1] ++ lits "user" ++ [Tok.anystar] ++ lits "identified",
          lits "create" ++ [Tok.ws1] ++ lits "user" ++ [Tok.anystar] ++ lits "dba"]],
      severity := "CRITIQUE",
      description := "Tentative d'escalade de privilèges" }),
   ("DATA_EXFILTRATION",
    { patterns :=
        [[lits "select" ++ [Tok.anystar] ++ lits "from" ++ [Tok.anystar] ++ lits "password",
          lits "select" ++ [Tok.anystar] ++ lits "from" ++ [Tok.anystar] ++ lits "credit"],
         [lits "utl_http", lits "utl_smtp", lits "utl_file.put_line"]],
      severity := "CRITIQUE",
      description := "Tentative d'exfiltration de données sensibles" }),
   ("BRUTE_FORCE",
    { patterns :=
        [[lits "failed" ++ [Tok.ws1] ++ lits "login",
          lits "authentication" ++ [Tok.ws1] ++ lits "failed",
          lits "invalid" ++ [Tok.ws1] ++ lits "password"]],
      severity := "HAUT",
      description := "Tentatives de connexion répétées (brute force)" }),
   ("SUSPICIOUS_DDL",
    { patterns :=
        [[lits "drop" ++ [Tok.ws1] ++ lits "table" ++ [Tok.anystar] ++ lits "audit",
          lits "truncate" ++ [Tok.anystar] ++ lits "audit",
          lits "alter" ++ [Tok.anystar] ++ lits "audit"],
         [lits "drop" ++ [Tok.ws1] ++ lits "user" ++ [Tok.ws1] ++ lits "sys",
          lits "drop" ++ [Tok.ws1] ++ lits "tablespace"]],
      severity := "CRITIQUE",
      description := "Opération DDL suspecte" }),
   ("OFF_HOURS_ACCESS",
    { patterns := [],
      severity := "MOYEN",
      description := "Accès en dehors des heures ouvrables" }),
   ("SENSITIVE_ACCESS",
    { patterns :=
        [[lits "sys.aud$", lits "dba_users", lits "dba_tab_privs"],
         [lits "all_passwords", lits "user_history", lits "dba_roles"]],
      severity := "HAUT",
      description := "Accès à objets système sensibles" })]

/-- `SEVERITY_LEVELS[lvl]['score']` (module6, lines 80-86). -/
def severity_score_of (lvl : String) : Nat :=
  if lvl = "CRITIQUE" then 100
  else if lvl = "HAUT" then 70
  else if lvl = "MOYEN" then 40
  else if lvl = "BAS" then 20
  else 0

/-- `SEVERITY_LEVELS[lvl]['action']`. -/
def severity_action_of (lvl : String) : String :=
  if lvl = "CRITIQUE" then "BLOQUER IMMÉDIATEMENT"
  else if lvl = "HAUT" then "INVESTIGATION URGENTE"
  else if lvl = "MOYEN" then "SURVEILLANCE ACCRUE"
  else if lvl = "BAS" then "NOTIFICATION"
  else "AUCUNE"

/-- `_score_to_severity` (module6, lines 234-245). -/
def score_to_severity (score : Nat) : String :=
  if 90 ≤ score then "CRITIQUE"
  else if 70 ≤ score then "HAUT"
  else if 40 ≤ score then "MOYEN"
  else if 20 ≤ score then "BAS"
  else "NORMAL"

/-- Python `str.upper` (ASCII). -/
def upperS (s : String) : String := ⟨s.data.map Char.toUpper⟩

/-- `_severity_to_score` (module6, lines 247-256): dictionary lookup on the
upper-cased level, defaulting to 0. -/
def severity_to_score (s : String) : Nat :=
  if upperS s = "CRITIQUE" then 100
  else if upperS s = "HAUT" then 70
  else if upperS s = "MOYEN" then 40
  else if upperS s = "BAS" then 20
  else if upperS s = "NORMAL" then 0
  else 0

/-- An audit-log record as handled by the detector: a Python dict whose keys
may be absent (`none`); every read in the source goes through
`log.get(key, '')`, modelled by `getF`. -/
structure Log where
  timestamp : Option String := none
  username : Option String := none
  action : Option String := none
  object_name : Option String := none
  sql_text : Option String := none
  client_ip : Option String := none
  returncode : Option String := none
  session_id : Option String := none
deriving DecidableEq, Repr

/-- `log.get(key, '')`. -/
def getF (f : Option String) : String := f.getD ""

/-- `combined_text = f"{sql_text} {action} {object_name}"` (module6,
line 131). -/
def combined_text (log : Log) : String :=
  getF log.sql_text ++ " " ++ getF log.action ++ " " ++ getF log.object_name

/-- `detect_attack_patterns` (module6, lines 125-142): every table entry one
of whose regexes matches the combined text, in table order (the source
breaks out of the inner pattern loop after the first hit, so each class is
reported once; the `stats` counter update has no effect on the result). -/
def detect_attack_patterns (log : Log) : List (String × AttackInfo) :=
  ATTACK_PATTERNS.filter fun e =>
    e.2.patterns.any fun rgx => searchRegex rgx (combined_text log).data

/-- `check_off_hours_access` (module6, lines 144-153).  `parse` models
`datetime.fromisoformat` on the (space-to-T-normalised) timestamp string:
it yields the `(hour, weekday)` pair, or `none` when parsing raises, in
which case the source's `except` branch returns `False`. -/
def check_off_hours_access (parse : String → Option (Nat × Nat)) (ts : String) : Bool :=
  match parse ts with
  | none => false
  | some hw =>
    let is_night := decide (22 ≤ hw.1) || decide (hw.1 ≤ 6)
    let is_weekend := decide (5 ≤ hw.2)
    is_night || is_weekend

/-- The dictionary returned by `OracleAnomalyDetector._get_llm_analysis`
(module6, lines 258-305): every branch of that method returns all five
keys, with arbitrary string content in the JSON-parsed case.  Theorems
about `analyze_log_entry` quantify over this value, so they hold for
every behaviour of the LLM collaborator. -/
structure LlmAnalysis where
  classification : String
  justification : String
  severite : String
  patterns_detectes : List String
  recommandation : String
deriving DecidableEq, Repr

/-- The report dictionary built by `analyze_log_entry` (module6, lines
218-230).  `analysis_time` is the wall-clock stamp
`datetime.now().isoformat()` the source stores under the `timestamp` key. -/
structure Report where
  log : Log
  classification : String
  severity_score : Nat
  severity_level : String
  attack_types : List String
  justifications : List String
  is_off_hours : Bool
  recommended_action : String
  llm_analysis : Option LlmAnalysis
  analysis_time : String
deriving DecidableEq, Repr

/-- Maximum severity score over the detected attacks
(`max(SEVERITY_LEVELS[...]['score'] for ...)`, nonempty in context). -/
def maxAttackScore (detected : List (String × AttackInfo)) : Nat :=
  (detected.map fun a => severity_score_of a.2.severity).foldl Nat.max 0

/-- Classification / score / attack types / justifications before the LLM
integration step (module6, lines 163-195). -/
def baseClassification (detected : List (String × AttackInfo)) (off : Bool) :
    String × Nat × List String × List String :=
  if detected.isEmpty = false then
    let m := maxAttackScore detected
    (if 70 ≤ m then "CRITIQUE" else "SUSPECT", m, detected.map (·.1),
      detected.map fun a => a.2.description)
  else if off then
    ("SUSPECT", 40, ["OFF_HOURS_ACCESS"], ["Accès en dehors des heures ouvrables"])
  else
    ("NORMAL", 0, [], [])

/-- LLM integration step (module6, lines 197-216): the LLM's verdict is
taken only when it says SUSPECT/CRITIQUE and the rule-based classification
was NORMAL; it can then raise the score, extend the attack types and add a
justification.  (The `stats` counters mutated there do not reach the
report.) -/
def llmIntegrate (llm : Option LlmAnalysis) (base : String × Nat × List String × List String) :
    String × Nat × List String × List String :=
  match llm with
  | none => base
  | some la =>
    if (la.classification = "SUSPECT" ∨ la.classification = "CRITIQUE") ∧ base.1 = "NORMAL" then
      (la.classification, Nat.max base.2.1 (severity_to_score la.severite),
        base.2.2.1 ++ la.patterns_detectes,
        base.2.2.2 ++ ["LLM: " ++ la.justification])
    else base

/-- `analyze_log_entry` (module6, lines 155-232).  `parse` models the
datetime library, `llm` the value of `_get_llm_analysis` when an engine is
configured (`none` = no engine), `now` the wall clock read at report time. -/
def analyze_log_entry (parse : String → Option (Nat × Nat)) (llm : Option LlmAnalysis)
    (now : String) (log : Log) : Report :=
  let detected := detect_attack_patterns log
  let off := check_off_hours_access parse (getF log.timestamp)
  let final := llmIntegrate llm (baseClassification detected off)
  { log := log
    classification := final.1
    severity_score := final.2.1
    severity_level := score_to_severity final.2.1
    attack_types := final.2.2.1
    justifications := final.2.2.2
    is_off_hours := off
    recommended_action :=
      match llm with
      | some la => la.recommandation
      | none => severity_action_of (score_to_severity final.2.1)
    llm_analysis := llm
    analysis_time := now }

theorem llmIntegrate_not_normal (llm : Option LlmAnalysis)
    (base : String × Nat × List String × List String) (h : base.1 ≠ "NORMAL") :
    llmIntegrate llm base = base := by
  cases llm with
  | none => rfl
  | some la => simp [llmIntegrate, h]

/-- Claim C6: a log entry matching no attack-signature pattern but stamped in
the off-hours window (hour ≥ 22 or ≤ 6, or weekday ≥ 5) is classified
SUSPECT with score 40, severity level MOYEN (MEDIUM), and
OFF_HOURS_ACCESS as the only flagged signature class — for every behaviour
of the optional LLM collaborator. -/
theorem c6_off_hours_only (parse : String → Option (Nat × Nat)) (llm : Option LlmAnalysis)
    (now : String) (log : Log) (h w : Nat)
    (hnone : detect_attack_patterns log = [])
    (hp : parse (getF log.timestamp) = some (h, w))
    (hoff : 22 ≤ h ∨ h ≤ 6 ∨ 5 ≤ w) :
    (analyze_log_entry parse llm now log).classification = "SUSPECT" ∧
    (analyze_log_entry parse llm now log).severity_score = 40 ∧
    (analyze_log_entry parse llm now log).severity_level = "MOYEN" ∧
    (analyze_log_entry parse llm now log).attack_types = ["OFF_HOURS_ACCESS"] := by
  have hofft : check_off_hours_access parse (getF log.timestamp) = true := by
    simp [check_off_hours_access, hp]
    tauto
  have hbase :
      baseClassification (detect_attack_patterns log)
        (check_off_hours_access parse (getF log.timestamp)) =
      ("SUSPECT", 40, ["OFF_HOURS_ACCESS"], ["Accès en dehors des heures ouvrables"]) := by
    rw [hnone, hofft]
    rfl
  have hint := llmIntegrate_not_normal llm
    ("SUSPECT", 40, ["OFF_HOURS_ACCESS"], ["Accès en dehors des heures ouvrables"])
    (by decide)
  refine ⟨?_, ?_, ?_, ?_⟩ <;>
    simp [analyze_log_entry, hbase, hint, score_to_severity]

/-- Witness for C6: `SELECT * FROM orders` on Saturday 03:00. -/
theorem c6_off_hours_only_witness :
    (analyze_log_entry (fun _ => some (3, 5)) none "t"
      { sql_text := some "SELECT * FROM orders", action := some "SELECT",
        object_name := some "ORDERS",
        timestamp := some "2025-01-04 03:00:00" }).classification = "SUSPECT" ∧
    (analyze_log_entry (fun _ => some (3, 5)) none "t"
      { sql_text := some "SELECT * FROM orders", action := some "SELECT",
        object_name := some "ORDERS",
        timestamp := some "2025-01-04 03:00:00" }).severity_score = 40 ∧
    (analyze_log_entry (fun _ => some (3, 5)) none "t"
      { sql_text := some "SELECT * FROM orders", action := some "SELECT",
        object_name := some "ORDERS",
        timestamp := some "2025-01-04 03:00:00" }).severity_level = "MOYEN" ∧
    (analyze_log_entry (fun _ => some (3, 5)) none "t"
      { sql_text := some "SELECT * FROM orders", action := some "SELECT",
        object_name := some "ORDERS",
        timestamp := some "2025-01-04 03:00:00" }).attack_types = ["OFF_HOURS_ACCESS"] :=
  c6_off_hours_only (fun _ => some (3, 5)) none "t"
    { sql_text := some "SELECT * FROM orders", action := some "SELECT",
      object_name := some "ORDERS", timestamp := some "2025-01-04 03:00:00" }
    3 5 (by decide) rfl (Or.inr (Or.inl (by decide)))

theorem foldl_max_init (l : List Nat) (i : Nat) : i ≤ l.foldl Nat.max i := by
  induction l generalizing i with
  | nil => simp
  | cons x xs ih => exact le_trans (Nat.le_max_left i x) (ih (Nat.max i x))

theorem mem_le_foldl_max (l : List Nat) (a : Nat) (ha : a ∈ l) (i : Nat) :
    a ≤ l.foldl Nat.max i := by
  induction l generalizing i with
  | nil => cases ha
  | cons x xs ih =>
    rcases List.mem_cons.mp ha with rfl | h
    · exact le_trans (Nat.le_max_right i a) (foldl_max_init xs _)
    · exact ih h _

/-- Claim C10: every attack-pattern match yields classification CRITIQUE,
never SUSPECT: all table entries that own at least one pattern carry
severity CRITIQUE (score 100) or HAUT (score 70), and the classification
threshold is score ≥ 70 — so the final score of any matching entry is
at least 70.  (SUSPECT is reachable only via the off-hours check, score
40, or the model path.) -/
theorem c10_pattern_match_is_critique (parse : String → Option (Nat × Nat))
    (llm : Option LlmAnalysis) (now : String) (log : Log)
    (h : detect_attack_patterns log ≠ []) :
    (analyze_log_entry parse llm now log).classification = "CRITIQUE" ∧
    70 ≤ (analyze_log_entry parse llm now log).severity_score ∧
    (∀ e ∈ ATTACK_PATTERNS, e.2.patterns ≠ [] →
      severity_score_of e.2.severity = 100 ∨ severity_score_of e.2.severity = 70) := by
  have htable : ∀ e ∈ ATTACK_PATTERNS, e.2.patterns ≠ [] →
      severity_score_of e.2.severity = 100 ∨ severity_score_of e.2.severity = 70 := by
    decide
  obtain ⟨e, he⟩ := List.exists_mem_of_ne_nil _ h
  have hmem : e ∈ ATTACK_PATTERNS ∧
      (e.2.patterns.any fun rgx => searchRegex rgx (combined_text log).data) = true :=
    List.mem_filter.mp he
  have hpat : e.2.patterns ≠ [] := by
    intro hp
    rw [hp] at hmem
    simp [List.any_nil] at hmem
  have h70 : 70 ≤ severity_score_of e.2.severity := by
    rcases htable e hmem.1 hpat with h100 | h70
    · omega
    · omega
  have hmax : 70 ≤ maxAttackScore (detect_attack_patterns log) :=
    le_trans h70
      (mem_le_foldl_max _ _ (List.mem_map_of_mem (fun a => severity_score_of a.2.severity) he) 0)
  have hne : (detect_attack_patterns log).isEmpty = false := by
    cases hI : (detect_attack_patterns log).isEmpty
    · rfl
    · exact absurd (List.isEmpty_iff.mp hI) h
  have hbase :
      baseClassification (detect_attack_patterns log)
        (check_off_hours_access parse (getF log.timestamp)) =
      ("CRITIQUE", maxAttackScore (detect_attack_patterns log),
        (detect_attack_patterns log).map (·.1),
        (detect_attack_patterns log).map fun a => a.2.description) := by
    simp [baseClassification, hne, hmax]
  have hint := llmIntegrate_not_normal llm
    ("CRITIQUE", maxAttackScore (detect_attack_patterns log),
      (detect_attack_patterns log).map (·.1),
      (detect_attack_patterns log).map fun a => a.2.description)
    (show ("CRITIQUE" : String) ≠ "NORMAL" by decide)
  refine ⟨?_, ?_, htable⟩ <;> simp [analyze_log_entry, hbase, hint, hmax]

/-- Witness for C10: a BRUTE_FORCE (HAUT, score 70) signature alone is
classified CRITIQUE. -/
theorem c10_pattern_match_is_critique_witness :
    (analyze_log_entry (fun _ => none) none "t"
      { sql_text := some "authentication failed for user SYS" }).classification = "CRITIQUE" ∧
    70 ≤ (analyze_log_entry (fun _ => none) none "t"
      { sql_text := some "authentication failed for user SYS" }).severity_score ∧
    (∀ e ∈ ATTACK_PATTERNS, e.2.patterns ≠ [] →
      severity_score_of e.2.severity = 100 ∨ severity_score_of e.2.severity = 70) :=
  c10_pattern_match_is_critique (fun _ => none) none "t"
    { sql_text := some "authentication failed for user SYS" } (by decide)

/-- The classification-relevant fields of a report: everything except the
input echo (`log`), the LLM echo, and the wall-clock stamp. -/
def classCore (r : Report) : String × Nat × String × List String × List String × Bool × String :=
  (r.classification, r.severity_score, r.severity_level, r.attack_types,
    r.justifications, r.is_off_hours, r.recommended_action)

/-- A log with every absent field replaced by the empty-string default the
source's `log.get(key, '')` reads would produce. -/
def normalizeLog (log : Log) : Log :=
  { timestamp := some (getF log.timestamp), username := some (getF log.username),
    action := some (getF log.action), object_name := some (getF log.object_name),
    sql_text := some (getF log.sql_text), client_ip := some (getF log.client_ip),
    returncode := some (getF log.returncode), session_id := some (getF log.session_id) }

/-- Counterexample to claim C4: a record with every required field missing is
classified without any error — the analyzer returns a NORMAL report whose
classification fields coincide with those of the defaults-substituted
record, instead of raising an `InputError` (no such error exists in the
source). -/
theorem c4_counterexample_missing_fields_no_error :
    (analyze_log_entry (fun _ => none) none "2025-01-01T00:00:00" {}).classification
      = "NORMAL" ∧
    classCore (analyze_log_entry (fun _ => none) none "2025-01-01T00:00:00" {}) =
      classCore (analyze_log_entry (fun _ => none) none "2025-01-01T00:00:00"
        { timestamp := some "", username := some "", action := some "",
          object_name := some "", sql_text := some "", client_ip := some "",
          returncode := some "", session_id := some "" }) := by
  constructor
  · decide
  · decide

/-- Claim C4 as amended: instead of raising, the classifier silently
substitutes the empty-string default for every missing field: the
classification fields of the report on any partial record equal those on
the defaults-substituted record, for every collaborator behaviour. -/
theorem c4_amended_defaults_substituted (parse : String → Option (Nat × Nat))
    (llm : Option LlmAnalysis) (now : String) (log : Log) :
    classCore (analyze_log_entry parse llm now log) =
      classCore (analyze_log_entry parse llm now (normalizeLog log)) := rfl

/-- Counterexample to claim C8: two calls of the analyzer on the same input
do not return equal results, because the source stamps each report with
the wall clock (`report['timestamp'] = datetime.now().isoformat()`),
ambient hidden state that appears in the output. -/
theorem c8_counterexample_wall_clock_in_output :
    analyze_log_entry (fun _ => none) none "2025-01-01T10:00:00"
        { sql_text := some "SELECT 1 FROM dual" } ≠
      analyze_log_entry (fun _ => none) none "2025-01-01T10:00:05"
        { sql_text := some "SELECT 1 FROM dual" } := by decide

/-- Claim C8 as amended: the classification fields of the report (severity,
score, level, attack types, justifications, off-hours flag, recommended
action) are a pure function of the input — two calls at different wall
clocks agree on all of them; only the wall-clock stamp differs. -/
theorem c8_amended_classification_deterministic (parse : String → Option (Nat × Nat))
    (llm : Option LlmAnalysis) (now1 now2 : String) (log : Log) :
    classCore (analyze_log_entry parse llm now1 log) =
      classCore (analyze_log_entry parse llm now2 log) := rfl

/-! ## Attack-sequence detection (`detect_attack_sequences`) -/

/-- Lexicographic (code-point) comparison of character lists: the string
order Python's `sorted(key=...)` uses on timestamps. -/
def leL : List Char → List Char → Bool
  | [], _ => true
  | _ :: _, [] => false
  | a :: as, b :: bs =>
    if a.val < b.val then true
    else if b.val < a.val then false
    else leL as bs

/-- Grouping key `f"{username}_{client_ip}"` (module6, line 313). -/
def keyOf (log : Log) : String := getF log.username ++ "_" ++ getF log.client_ip

/-- Distinct grouping keys in first-occurrence order (Python dicts iterate
in insertion order). -/
def sessionKeys : List Log → List String
  | [] => []
  | l :: rest => keyOf l :: sessionKeys (rest.filter fun x => !(keyOf x == keyOf l))
termination_by logs => logs.length
decreasing_by
  simp only [List.length_cons]
  exact Nat.lt_succ_of_le (List.length_filter_le _ _)

/-- One element of a sequence's `attack_chain`: the record's timestamp (no
default here — `log.get('timestamp')` yields `None` when absent), the
first detected attack class, and the record itself. -/
structure ChainEntry where
  timestamp : Option String
  attack : String
  log : Log
deriving DecidableEq, Repr

/-- One flagged coordinated-attack sequence. -/
structure AttackSequence where
  session : String
  attack_chain : List ChainEntry
  severity : String
  description : String
deriving DecidableEq, Repr

/-- `sorted(session_logs, key=lambda x: x.get('timestamp', ''))` (module6,
line 320). -/
def sortByTs (g : List Log) : List Log :=
  g.mergeSort fun a b => leL (getF a.timestamp).data (getF b.timestamp).data

/-- The `attack_chain` built from a sorted group (module6, lines 322-330):
one entry per record matching an attack pattern, carrying the record's
timestamp, the first detected attack class (`attacks[0][0]`) and the
record. -/
def chainOf (g : List Log) : List ChainEntry :=
  (sortByTs g).filterMap fun l =>
    match detect_attack_patterns l with
    | [] => none
    | a :: _ => some { timestamp := l.timestamp, attack := a.1, log := l }

/-- `detect_attack_sequences` (module6, lines 307-340): group the records by
the (user, source-address) key, skip groups smaller than 3, sort each group
by timestamp, keep the records matching an attack pattern, and flag the
group as a CRITIQUE multi-step campaign when at least 3 match. -/
def detect_attack_sequences (logs : List Log) : List AttackSequence :=
  (sessionKeys logs).filterMap fun k =>
    if (logs.filter fun l => keyOf l == k).length < 3 then none
    else if 3 ≤ (chainOf (logs.filter fun l => keyOf l == k)).length then
      some { session := k, attack_chain := chainOf (logs.filter fun l => keyOf l == k),
             severity := "CRITIQUE",
             description := "Campagne d'attaque multi-étapes détectée" }
    else none

theorem mem_sessionKeys (logs : List Log) (k : String) :
    k ∈ sessionKeys logs ↔ ∃ l ∈ logs, keyOf l = k := by
  induction logs using sessionKeys.induct with
  | case1 => simp [sessionKeys]
  | case2 l rest ih =>
    simp only [sessionKeys, List.mem_cons, ih]
    constructor
    · rintro (rfl | ⟨x, hx, rfl⟩)
      · exact ⟨l, Or.inl rfl, rfl⟩
      · exact ⟨x, Or.inr (List.mem_filter.mp hx).1, rfl⟩
    · rintro ⟨x, hx, rfl⟩
      rcases hx with rfl | hx'
      · exact Or.inl rfl
      · by_cases hk : keyOf x = keyOf l
        · exact Or.inl hk
        · refine Or.inr ⟨x, List.mem_filter.mpr ⟨hx', ?_⟩, rfl⟩
          simp [hk]

theorem length_filterMap_eq_countP {α β : Type} (f : α → Option β) (l : List α) :
    (l.filterMap f).length = l.countP fun a => (f a).isSome := by
  induction l with
  | nil => rfl
  | cons x xs ih => cases hx : f x <;> simp [List.filterMap_cons, hx, List.countP_cons, ih]

/-- Claim C7: `detect_attack_sequences` emits a sequence for the group keyed
`k` exactly when at least 3 of the records in that group each match an
attack-signature rule (groups with fewer matching records are never
flagged), and every emitted sequence carries severity CRITIQUE. -/
theorem chainOf_length (g : List Log) :
    (chainOf g).length = g.countP fun l => !(detect_attack_patterns l).isEmpty := by
  unfold chainOf sortByTs
  rw [length_filterMap_eq_countP, (List.mergeSort_perm g _).countP_eq]
  have hfun :
      (fun l => (match detect_attack_patterns l with
        | [] => (none : Option ChainEntry)
        | a :: _ => some { timestamp := l.timestamp, attack := a.1, log := l }).isSome) =
      fun l => !(detect_attack_patterns l).isEmpty := by
    funext l
    cases hd : detect_attack_patterns l <;> simp [hd]
  rw [hfun]

/-- Claim C7: `detect_attack_sequences` emits a sequence for the group keyed
`k` exactly when at least 3 of the records in that group each match an
attack-signature rule (groups with fewer matching records are never
flagged), and every emitted sequence carries severity CRITIQUE. -/
theorem c7_sequences_iff_three_matches (logs : List Log) (k : String) :
    ((∃ s ∈ detect_attack_sequences logs, s.session = k) ↔
      3 ≤ (logs.filter fun l => keyOf l == k).countP
            fun l => !(detect_attack_patterns l).isEmpty) ∧
    (∀ s ∈ detect_attack_sequences logs, s.severity = "CRITIQUE") := by
  constructor
  · constructor
    · rintro ⟨s, hs, rfl⟩
      obtain ⟨k', hk', hF⟩ := List.mem_filterMap.mp hs
      split at hF
      · exact absurd hF (by simp)
      · split at hF
        · rename_i hlen
          obtain rfl := Option.some.inj hF
          rw [chainOf_length] at hlen
          exact hlen
        · exact absurd hF (by simp)
    · intro hcnt
      have hglen : 3 ≤ (logs.filter fun l => keyOf l == k).length :=
        le_trans hcnt (List.countP_le_length _)
      have hkey : k ∈ sessionKeys logs := by
        have hne : (logs.filter fun l => keyOf l == k) ≠ [] := by
          intro hnil
          rw [hnil] at hglen
          simp at hglen
        obtain ⟨x, hx⟩ := List.exists_mem_of_ne_nil _ hne
        have hx' := List.mem_filter.mp hx
        exact (mem_sessionKeys logs k).mpr ⟨x, hx'.1, by simpa using hx'.2⟩
      refine ⟨⟨k, chainOf (logs.filter fun l => keyOf l == k), "CRITIQUE",
               "Campagne d'attaque multi-étapes détectée"⟩,
        List.mem_filterMap.mpr ⟨k, hkey, ?_⟩, rfl⟩
      dsimp only
      rw [if_neg (by omega), if_pos (by rw [chainOf_length]; exact hcnt)]
  · intro s hs
    obtain ⟨k', hk', hF⟩ := List.mem_filterMap.mp hs
    split at hF
    · exact absurd hF (by simp)
    · split at hF
      · obtain rfl := Option.some.inj hF
        rfl
      · exact absurd hF (by simp)

end ProjetDBA
